import Mathlib

/-!
Verification development for the cb-tumblebug resource orchestration layer.

The definitions below are a shallow embedding of the Go source:

* `CreateVNet` and its helper structs follow `src/core/resource/vnet.go`
  (function `CreateVNet`, lines 147-309, and the request/response structs).
* `UpdateConfig`, `UpdateEnv`, `GetConfig`, `ListConfig` follow the config
  store code of package `common` (file `config.go`).

External effects (the Spider driver HTTP call, KV-store writes, the label
index write) are modelled by an explicit environment record that fixes each
effectful outcome of a single call, and by explicit state passing.  The KV
store is an association list from string keys to (typed) values; JSON
marshal/unmarshal of a struct round-trips on these field types, so storing
the struct itself is faithful.
-/

namespace Tumblebug

/-- Pair of strings used throughout the driver interface (common.KeyValue). -/
structure KeyValue where
  key : String
  value : String
deriving DecidableEq, Repr

/-- Driver identity pair (common.IID): NameId is driver-local, SystemId is CSP-native. -/
structure IID where
  NameId : String
  SystemId : String
deriving DecidableEq, Repr

/-- A generic association-list KV lookup (kvstore.GetKv / CBStore.Get on one key). -/
def kvGet {V : Type} : List (String × V) → String → Option V
  | [], _ => none
  | p :: rest, k => if p.1 = k then some p.2 else kvGet rest k

/-- A generic association-list KV write with overwrite semantics
(kvstore.Put / CBStore.Put: atomic per key, replaces an existing value). -/
def kvPut {V : Type} : List (String × V) → String → V → List (String × V)
  | [], k, v => [(k, v)]
  | p :: rest, k, v => if p.1 = k then (k, v) :: rest else p :: kvPut rest k v

/-- SpiderSubnetReqInfo: JSON body element of a Create VPC request toward the driver. -/
structure SpiderSubnetReqInfo where
  Name : String
  IPv4_CIDR : String
  KeyValueList : List KeyValue
deriving DecidableEq, Repr

/-- SpiderVPCReqInfo: JSON body of a Create VPC request toward the driver. -/
structure SpiderVPCReqInfo where
  Name : String
  IPv4_CIDR : String
  SubnetInfoList : List SpiderSubnetReqInfo
  CSPId : String
deriving DecidableEq, Repr

/-- SpiderVPCReqInfoWrapper: wrapper struct sent as the request body. -/
structure SpiderVPCReqInfoWrapper where
  ConnectionName : String
  ReqInfo : SpiderVPCReqInfo
deriving DecidableEq, Repr

/-- SpiderSubnetInfo: subnet element of the driver response. -/
structure SpiderSubnetInfo where
  IId : IID
  Zone : String
  IPv4_CIDR : String
  TagList : List KeyValue
  KeyValueList : List KeyValue
deriving DecidableEq, Repr

/-- SpiderVPCInfo: VPC information in the driver response. -/
structure SpiderVPCInfo where
  IId : IID
  IPv4_CIDR : String
  SubnetInfoList : List SpiderSubnetInfo
  TagList : List KeyValue
  KeyValueList : List KeyValue
deriving DecidableEq, Repr

/-- TbSubnetReq: subnet element of a Create vNet request toward CB-Tumblebug. -/
structure TbSubnetReq where
  Name : String
  IdFromCsp : String
  IPv4_CIDR : String
  Zone : String
  KeyValueList : List KeyValue
  Description : String
deriving DecidableEq, Repr

/-- TbVNetReq: the Create vNet request toward CB-Tumblebug. -/
structure TbVNetReq where
  Name : String
  ConnectionName : String
  CidrBlock : String
  SubnetInfoList : List TbSubnetReq
  Description : String
  CspVNetId : String
deriving DecidableEq, Repr

/-- Modelled from the spec: the persisted TB subnet object (model.TbSubnetInfo is
not under src/; the spec describes subnet as an MCIR child of vNet with the common
MCIR fields, and CreateVNet builds its request from the driver-returned fields). -/
structure TbSubnetInfo where
  Id : String
  Name : String
  IdFromCsp : String
  IPv4_CIDR : String
  Zone : String
  KeyValueList : List KeyValue
  Description : String
deriving DecidableEq, Repr

/-- TbVNetInfo: the persisted TB vNet object.  The struct in vnet.go is the
tumblebug object; CreateVNet assigns `content.Uuid`, so the model struct carries
the system-assigned `Uuid` field described in the spec data model as well. -/
structure TbVNetInfo where
  Id : String
  Name : String
  Uuid : String
  ConnectionName : String
  CidrBlock : String
  SubnetInfoList : List TbSubnetInfo
  Description : String
  CspVNetId : String
  CspVNetName : String
  Status : String
  KeyValueList : List KeyValue
  AssociatedObjectList : List String
  IsAutoGenerated : Bool
  SystemLabel : String
deriving DecidableEq, Repr

/-- The Go zero value model.TbVNetInfo\x7b\x7d: empty strings, nil lists, false. -/
def emptyTbVNetInfo : TbVNetInfo :=
  { Id := "", Name := "", Uuid := "", ConnectionName := "", CidrBlock := "",
    SubnetInfoList := [], Description := "", CspVNetId := "", CspVNetName := "",
    Status := "", KeyValueList := [], AssociatedObjectList := [],
    IsAutoGenerated := false, SystemLabel := "" }

/-- model.StrVNet, the resource-kind tag used in keys. -/
def strVNet : String := "vNet"

/-- The resource-kind tag for subnets. -/
def strSubnet : String := "subnet"

/-- Modelled from the spec: `common.CheckString` is not under src/; the spec
states ids are non-empty, charset-restricted strings with charset letters,
digits and dash. -/
def checkString (s : String) : Bool :=
  !s.data.isEmpty && s.data.all (fun c => c.isAlphanum || c == '-')

/-- validate.Struct on a TbVNetReq: the struct tags in vnet.go require Name and
ConnectionName, and the registered struct-level validation
TbVNetReqStructLevelValidation additionally runs checkString on Name.
No other field of TbVNetReq carries a validate tag (CidrBlock in particular
has none). -/
def validateVNetReq (u : TbVNetReq) : Bool :=
  !u.Name.data.isEmpty && !u.ConnectionName.data.isEmpty && checkString u.Name

/-- Modelled from the spec: `common.GenResourceKey` is not under src/; the spec
KV-tree invariant gives /ns/\x7bnsId\x7d/resources/\x7bkind\x7d/\x7bid\x7d. -/
def genResourceKey (nsId resourceType id : String) : String :=
  "/ns/" ++ nsId ++ "/resources/" ++ resourceType ++ "/" ++ id

/-- Modelled from the spec: the label index key /label/\x7bkind\x7d/\x7buuid\x7d. -/
def labelKey (kind uid : String) : String :=
  "/label/" ++ kind ++ "/" ++ uid

/-- An entry of the label index: primary key plus user labels. -/
structure LabelEntry where
  primaryKey : String
  labels : List (String × String)
deriving DecidableEq, Repr

/-- One outbound HTTP request handed to common.ExecuteHttpRequest. -/
structure DriverRequest where
  method : String
  url : String
  body : SpiderVPCReqInfoWrapper
deriving DecidableEq, Repr

/-- The mutable state CreateVNet touches: the vNet tree of the KV store, the
subnet tree, the label index, and (as an observation log) the sequence of
CreateSubnet invocations issued. -/
structure VNetState where
  vnetStore : List (String × TbVNetInfo)
  subnetStore : List (String × TbSubnetInfo)
  labelStore : List (String × LabelEntry)
  subnetCreates : List (String × String × TbSubnetReq)
deriving DecidableEq, Repr

/-- Outcomes of the effectful steps of one CreateVNet call: the uid returned by
common.GenUid, the configured driver base URL, the driver-call outcome
(none models an ExecuteHttpRequest error), and whether the KV put and the
label-index write succeed. -/
structure VNetEnv where
  genUid : String
  spiderRestUrl : String
  driverResult : Option SpiderVPCInfo
  putOk : Bool
  labelOk : Bool
deriving DecidableEq, Repr

/-- The distinct non-nil error returns of CreateVNet, in source order. -/
inductive VNetErr where
  | invalidNsId
  | invalidRequest
  | alreadyExists
  | driverError
  | kvPutError
  | labelError
deriving DecidableEq, Repr

/-- Result of one CreateVNet call: the (value, error) pair Go returns, the
post-state, and the outbound driver requests issued during the call. -/
structure CreateVNetResult where
  ret : TbVNetInfo
  err : Option VNetErr
  state : VNetState
  driverCalls : List DriverRequest
deriving DecidableEq, Repr

/-- Modelled from the spec: `CreateSubnet` is not under src/ (vnet.go only calls
it).  The spec says Create for a subnet persists the normalized entity under the
namespace resource tree and that a subnet is a child of its vNet, whose Get
returns both; so the model persists the subnet object and appends it to the
SubnetInfoList of the parent vNet record.  The call is also appended to the
observation log subnetCreates. -/
def CreateSubnet (nsId vNetId : String) (req : TbSubnetReq) (st : VNetState) : VNetState :=
  let info : TbSubnetInfo :=
    { Id := req.Name, Name := req.Name, IdFromCsp := req.IdFromCsp,
      IPv4_CIDR := req.IPv4_CIDR, Zone := req.Zone,
      KeyValueList := req.KeyValueList, Description := req.Description }
  let st1 : VNetState :=
    { st with
      subnetStore := kvPut st.subnetStore (genResourceKey nsId strSubnet req.Name) info,
      subnetCreates := st.subnetCreates ++ [(nsId, vNetId, req)] }
  let parentKey := genResourceKey nsId strVNet vNetId
  match kvGet st1.vnetStore parentKey with
  | none => st1
  | some parent =>
    { st1 with
      vnetStore := kvPut st1.vnetStore parentKey
        { parent with SubnetInfoList := parent.SubnetInfoList ++ [info] } }

/-- The request body CreateVNet builds (vnet.go lines 182-205): ReqInfo.Name is
the generated uid, and each subnet element goes through the
json.Marshal/Unmarshal bridge from TbSubnetReq to SpiderSubnetReqInfo, which
copies the identically-named fields Name, IPv4_CIDR and KeyValueList; Name is
then overwritten with v.Name (the commented-out GenUid call is disabled). -/
def vnetRequestBody (uuid : String) (u : TbVNetReq) : SpiderVPCReqInfoWrapper :=
  { ConnectionName := u.ConnectionName,
    ReqInfo :=
      { Name := uuid, IPv4_CIDR := u.CidrBlock, CSPId := u.CspVNetId,
        SubnetInfoList := u.SubnetInfoList.map (fun v =>
          { Name := v.Name, IPv4_CIDR := v.IPv4_CIDR,
            KeyValueList := v.KeyValueList }) } }

/-- Method and URL selection of CreateVNet (vnet.go lines 207-219). -/
def vnetMethodUrl (spiderRestUrl : String) (u : TbVNetReq) (opt : String) : String × String :=
  if opt = "register" && u.CspVNetId = "" then
    ("GET", spiderRestUrl ++ "/vpc/" ++ u.Name)
  else if opt = "register" && u.CspVNetId != "" then
    ("POST", spiderRestUrl ++ "/regvpc")
  else
    ("POST", spiderRestUrl ++ "/vpc")

/-- The single outbound driver request of one CreateVNet call. -/
def vnetDriverCall (env : VNetEnv) (u : TbVNetReq) (opt : String) : DriverRequest :=
  { method := (vnetMethodUrl env.spiderRestUrl u opt).1,
    url := (vnetMethodUrl env.spiderRestUrl u opt).2,
    body := vnetRequestBody env.genUid u }

/-- The normalized entity CreateVNet persists (vnet.go lines 236-253). -/
def vnetContent (uuid : String) (u : TbVNetReq) (opt : String)
    (callResult : SpiderVPCInfo) : TbVNetInfo :=
  { Id := u.Name, Name := u.Name, Uuid := uuid,
    ConnectionName := u.ConnectionName,
    CspVNetId := callResult.IId.SystemId,
    CspVNetName := callResult.IId.NameId,
    CidrBlock := callResult.IPv4_CIDR,
    Description := u.Description,
    KeyValueList := callResult.KeyValueList,
    AssociatedObjectList := [],
    SubnetInfoList := [], Status := "", IsAutoGenerated := false,
    SystemLabel :=
      if opt = "register" && u.CspVNetId = "" then
        "Registered from CB-Spider resource"
      else if opt = "register" && u.CspVNetId != "" then
        "Registered from CSP resource"
      else "" }

/-- The subnet-create request built from one driver-response subnet
(vnet.go lines 264-277): the json bridge from SpiderSubnetInfo to TbSubnetReq
copies IPv4_CIDR, Zone and KeyValueList; then Name is set to the driver
NameId and IdFromCsp to the driver SystemId. -/
def subnetReqOfSpider (v : SpiderSubnetInfo) : TbSubnetReq :=
  { Name := v.IId.NameId, IdFromCsp := v.IId.SystemId,
    IPv4_CIDR := v.IPv4_CIDR, Zone := v.Zone,
    KeyValueList := v.KeyValueList, Description := "" }

/-- The loop over callResult.SubnetInfoList (vnet.go lines 264-282), calling
CreateSubnet once per element; CreateSubnet errors are only logged. -/
def subnetFold (nsId vNetId : String) (l : List SpiderSubnetInfo) (st : VNetState) : VNetState :=
  l.foldl (fun s v => CreateSubnet nsId vNetId (subnetReqOfSpider v) s) st

/-- CreateVNet, following vnet.go lines 147-309 step by step. -/
def CreateVNet (env : VNetEnv) (st : VNetState) (nsId : String) (u : TbVNetReq)
    (opt : String) : CreateVNetResult :=
  let temp := emptyTbVNetInfo
  if !checkString nsId then
    { ret := temp, err := some .invalidNsId, state := st, driverCalls := [] }
  else if !validateVNetReq u then
    { ret := temp, err := some .invalidRequest, state := st, driverCalls := [] }
  else if (kvGet st.vnetStore (genResourceKey nsId strVNet u.Name)).isSome then
    { ret := temp, err := some .alreadyExists, state := st, driverCalls := [] }
  else
    let call := vnetDriverCall env u opt
    match env.driverResult with
    | none =>
      { ret := temp, err := some .driverError, state := st, driverCalls := [call] }
    | some callResult =>
      let content := vnetContent env.genUid u opt callResult
      let key := genResourceKey nsId strVNet content.Id
      if !env.putOk then
        { ret := content, err := some .kvPutError, state := st, driverCalls := [call] }
      else
        let st1 : VNetState := { st with vnetStore := kvPut st.vnetStore key content }
        let st2 := subnetFold nsId content.Id callResult.SubnetInfoList st1
        let result := (kvGet st2.vnetStore key).getD emptyTbVNetInfo
        if !env.labelOk then
          { ret := content, err := some .labelError, state := st2, driverCalls := [call] }
        else
          let st3 : VNetState :=
            { st2 with
              labelStore := kvPut st2.labelStore (labelKey strVNet env.genUid)
                { primaryKey := key,
                  labels := [("provider", "cb-tumblebug"), ("namespace", nsId)] } }
          { ret := result, err := none, state := st3, driverCalls := [call] }

/-- GetVNet: a Get of the vNet object at (nsId, vNet, id) reads the KV entry
at the resource key (kvstore.GetKv plus json.Unmarshal). -/
def GetVNet (st : VNetState) (nsId id : String) : Option TbVNetInfo :=
  kvGet st.vnetStore (genResourceKey nsId strVNet id)

/-- ConfigReq: the body of a config Update request (config.go). -/
structure ConfigReq where
  Name : String
  Value : String
deriving DecidableEq, Repr

/-- ConfigInfo: the persisted config entry (config.go). -/
structure ConfigInfo where
  Id : String
  Name : String
  Value : String
deriving DecidableEq, Repr

/-- The process-wide mirror variables refreshed by UpdateEnv (package common). -/
structure ConfigMirror where
  SPIDER_REST_URL : String
  DRAGONFLY_REST_URL : String
  DB_URL : String
  DB_DATABASE : String
  DB_USER : String
  DB_PASSWORD : String
  AUTOCONTROL_DURATION_MS : String
deriving DecidableEq, Repr

/-- State the config store touches: the /config/ subtree of the KV store and
the in-process mirror. -/
structure ConfigState where
  store : List (String × ConfigInfo)
  mirror : ConfigMirror
deriving DecidableEq, Repr

/-- The enumerated configuration keys (the cases of the UpdateEnv switch). -/
def configAllowList : List String :=
  ["SPIDER_REST_URL", "DRAGONFLY_REST_URL", "DB_URL", "DB_DATABASE",
   "DB_USER", "DB_PASSWORD", "AUTOCONTROL_DURATION_MS"]

/-- CheckConfig (config.go): an empty id is an error; otherwise report whether
/config/\x7bid\x7d exists. -/
def CheckConfig (st : ConfigState) (id : String) : Bool :=
  if id = "" then false else (kvGet st.store ("/config/" ++ id)).isSome

/-- GetConfig (config.go): fails when CheckConfig does not find the key, else
reads and unmarshals /config/\x7bid\x7d. -/
def GetConfig (st : ConfigState) (id : String) : Option ConfigInfo :=
  if id = "" then none else kvGet st.store ("/config/" ++ id)

/-- ListConfig (config.go): unmarshal every value one level below /config. -/
def ListConfig (st : ConfigState) : List ConfigInfo :=
  st.store.map (fun p => p.2)

/-- UpdateEnv (config.go): re-read the stored config entry and refresh the
matching mirror variable; the switch has an empty default case, so an id
outside the enumerated keys changes nothing. -/
def UpdateEnv (id : String) (st : ConfigState) : ConfigState :=
  match GetConfig st id with
  | none => st
  | some configInfo =>
    let m := st.mirror
    let m2 : ConfigMirror :=
      if id = "SPIDER_REST_URL" then { m with SPIDER_REST_URL := configInfo.Value }
      else if id = "DRAGONFLY_REST_URL" then { m with DRAGONFLY_REST_URL := configInfo.Value }
      else if id = "DB_URL" then { m with DB_URL := configInfo.Value }
      else if id = "DB_DATABASE" then { m with DB_DATABASE := configInfo.Value }
      else if id = "DB_USER" then { m with DB_USER := configInfo.Value }
      else if id = "DB_PASSWORD" then { m with DB_PASSWORD := configInfo.Value }
      else if id = "AUTOCONTROL_DURATION_MS" then { m with AUTOCONTROL_DURATION_MS := configInfo.Value }
      else m
    { st with mirror := m2 }

/-- Reads the mirror variable that UpdateEnv associates with an enumerated key. -/
def mirrorLookup (m : ConfigMirror) (name : String) : Option String :=
  if name = "SPIDER_REST_URL" then some m.SPIDER_REST_URL
  else if name = "DRAGONFLY_REST_URL" then some m.DRAGONFLY_REST_URL
  else if name = "DB_URL" then some m.DB_URL
  else if name = "DB_DATABASE" then some m.DB_DATABASE
  else if name = "DB_USER" then some m.DB_USER
  else if name = "DB_PASSWORD" then some m.DB_PASSWORD
  else if name = "AUTOCONTROL_DURATION_MS" then some m.AUTOCONTROL_DURATION_MS
  else none

/-- Result of an UpdateConfig call: the (value, error) pair and the post-state. -/
structure UpdateConfigResult where
  ret : ConfigInfo
  err : Bool
  state : ConfigState
deriving DecidableEq, Repr

/-- UpdateConfig (config.go): build the ConfigInfo from the request, persist it
at /config/\x7bid\x7d unconditionally (there is no allow-list check), then call
UpdateEnv, whose return value is discarded.  putOk models the CBStore.Put
outcome; on a failed put the error is returned and UpdateEnv is not reached.
err true models a non-nil error return. -/
def UpdateConfig (putOk : Bool) (st : ConfigState) (u : ConfigReq) : UpdateConfigResult :=
  let content : ConfigInfo := { Id := u.Name, Name := u.Name, Value := u.Value }
  let key := "/config/" ++ content.Id
  if !putOk then
    { ret := content, err := true, state := st }
  else
    let st1 : ConfigState := { st with store := kvPut st.store key content }
    let st2 := UpdateEnv content.Id st1
    { ret := content, err := false, state := st2 }

/-- The empty initial state of the vNet trees. -/
def emptyVNetState : VNetState :=
  { vnetStore := [], subnetStore := [], labelStore := [], subnetCreates := [] }

/-- A concrete subnet element for a Create vNet request. -/
def exSubnetReq : TbSubnetReq :=
  { Name := "subnet01", IdFromCsp := "", IPv4_CIDR := "192.168.1.0/24",
    Zone := "", KeyValueList := [], Description := "subnet desc" }

/-- A concrete Create vNet request. -/
def exReq : TbVNetReq :=
  { Name := "vnet01", ConnectionName := "conn01",
    CidrBlock := "192.168.0.0/16", SubnetInfoList := [exSubnetReq],
    Description := "vnet desc", CspVNetId := "" }

/-- A concrete driver response whose CIDR differs from the requested one and
which reports one subnet. -/
def exVPCInfo : SpiderVPCInfo :=
  { IId := { NameId := "csp-vpc-name", SystemId := "csp-sys-id" },
    IPv4_CIDR := "10.0.0.0/16",
    SubnetInfoList :=
      [{ IId := { NameId := "csp-subnet-name", SystemId := "csp-subnet-sys" },
         Zone := "zone-a", IPv4_CIDR := "10.0.1.0/24",
         TagList := [], KeyValueList := [] }],
    TagList := [], KeyValueList := [] }

/-- A concrete fully-successful environment. -/
def exEnv : VNetEnv :=
  { genUid := "uid-8f2c", spiderRestUrl := "http://localhost:1024/spider",
    driverResult := some exVPCInfo, putOk := true, labelOk := true }

/-- A concrete request with a malformed CIDR block. -/
def exBadCidrReq : TbVNetReq :=
  { Name := "vnet02", ConnectionName := "conn01", CidrBlock := "not-a-cidr",
    SubnetInfoList := [], Description := "", CspVNetId := "" }

/-- The all-empty config mirror. -/
def emptyMirror : ConfigMirror :=
  { SPIDER_REST_URL := "", DRAGONFLY_REST_URL := "", DB_URL := "",
    DB_DATABASE := "", DB_USER := "", DB_PASSWORD := "",
    AUTOCONTROL_DURATION_MS := "" }

/-- The empty initial config state. -/
def emptyConfigState : ConfigState := { store := [], mirror := emptyMirror }

/-! Helper lemmas about the KV model and the subnet loop. -/

theorem kvGet_kvPut_self {V : Type} (s : List (String × V)) (k : String) (v : V) :
    kvGet (kvPut s k v) k = some v := by
  induction s with
  | nil => simp [kvPut, kvGet]
  | cons p rest ih =>
    by_cases h : p.1 = k
    · simp [kvPut, h, kvGet]
    · simp [kvPut, h, kvGet, ih]

theorem kvGet_mem_values {V : Type} (s : List (String × V)) (k : String) (v : V)
    (h : kvGet s k = some v) : v ∈ s.map (fun p => p.2) := by
  induction s with
  | nil => simp [kvGet] at h
  | cons p rest ih =>
    by_cases hp : p.1 = k
    · simp [kvGet, hp] at h
      simp [h]
    · simp [kvGet, hp] at h
      simp [ih h]

theorem kvPut_value_mem {V : Type} (s : List (String × V)) (k : String) (v : V) :
    v ∈ (kvPut s k v).map (fun p => p.2) :=
  kvGet_mem_values _ _ _ (kvGet_kvPut_self ..)

theorem createSubnet_subnetCreates (nsId vNetId : String) (req : TbSubnetReq)
    (st : VNetState) :
    (CreateSubnet nsId vNetId req st).subnetCreates
      = st.subnetCreates ++ [(nsId, vNetId, req)] := by
  unfold CreateSubnet
  cases kvGet st.subnetStore (genResourceKey nsId strSubnet req.Name) <;>
    cases hm : kvGet st.vnetStore (genResourceKey nsId strVNet vNetId) <;>
      simp [hm]

theorem subnetFold_subnetCreates (nsId vNetId : String) (l : List SpiderSubnetInfo)
    (st : VNetState) :
    (subnetFold nsId vNetId l st).subnetCreates
      = st.subnetCreates ++ l.map (fun v => (nsId, vNetId, subnetReqOfSpider v)) := by
  induction l generalizing st with
  | nil => simp [subnetFold]
  | cons v rest ih =>
    have step := createSubnet_subnetCreates nsId vNetId (subnetReqOfSpider v) st
    simp only [subnetFold, List.foldl_cons] at ih ⊢
    rw [ih, step]
    simp

theorem createSubnet_parent (nsId vNetId : String) (req : TbSubnetReq)
    (st : VNetState) (e : TbVNetInfo)
    (h : kvGet st.vnetStore (genResourceKey nsId strVNet vNetId) = some e) :
    ∃ l, kvGet (CreateSubnet nsId vNetId req st).vnetStore
        (genResourceKey nsId strVNet vNetId)
      = some { e with SubnetInfoList := l } := by
  refine ⟨e.SubnetInfoList ++
    [{ Id := req.Name, Name := req.Name, IdFromCsp := req.IdFromCsp,
       IPv4_CIDR := req.IPv4_CIDR, Zone := req.Zone,
       KeyValueList := req.KeyValueList, Description := req.Description }], ?_⟩
  unfold CreateSubnet
  simp only [h]
  exact kvGet_kvPut_self ..

theorem subnetFold_parent (nsId vNetId : String) (l : List SpiderSubnetInfo)
    (st : VNetState) (e : TbVNetInfo)
    (h : kvGet st.vnetStore (genResourceKey nsId strVNet vNetId) = some e) :
    ∃ subs, kvGet (subnetFold nsId vNetId l st).vnetStore
        (genResourceKey nsId strVNet vNetId)
      = some { e with SubnetInfoList := subs } := by
  induction l generalizing st e with
  | nil =>
    exact ⟨e.SubnetInfoList, by simpa [subnetFold] using h⟩
  | cons v rest ih =>
    obtain ⟨l1, h1⟩ := createSubnet_parent nsId vNetId (subnetReqOfSpider v) st e h
    obtain ⟨subs, h2⟩ := ih _ _ h1
    exact ⟨subs, by simpa [subnetFold] using h2⟩

/-- Bundles the hypotheses of the fully successful CreateVNet path: valid
namespace id, valid request, no existing entry, driver success with response r,
and both persistence effects succeeding. -/
def SuccessPath (env : VNetEnv) (st : VNetState) (nsId : String) (u : TbVNetReq)
    (r : SpiderVPCInfo) : Prop :=
  checkString nsId = true ∧ validateVNetReq u = true ∧
  kvGet st.vnetStore (genResourceKey nsId strVNet u.Name) = none ∧
  env.driverResult = some r ∧ env.putOk = true ∧ env.labelOk = true

instance (env : VNetEnv) (st : VNetState) (nsId : String) (u : TbVNetReq)
    (r : SpiderVPCInfo) : Decidable (SuccessPath env st nsId u r) := by
  unfold SuccessPath; infer_instance

theorem createVNet_success_eq (env : VNetEnv) (st : VNetState) (nsId : String)
    (u : TbVNetReq) (opt : String) (r : SpiderVPCInfo)
    (h : SuccessPath env st nsId u r) :
    CreateVNet env st nsId u opt =
      (let content := vnetContent env.genUid u opt r
       let key := genResourceKey nsId strVNet u.Name
       let st1 : VNetState := { st with vnetStore := kvPut st.vnetStore key content }
       let st2 := subnetFold nsId u.Name r.SubnetInfoList st1
       { ret := (kvGet st2.vnetStore key).getD emptyTbVNetInfo,
         err := none,
         state :=
           { st2 with
             labelStore := kvPut st2.labelStore (labelKey strVNet env.genUid)
               { primaryKey := key,
                 labels := [("provider", "cb-tumblebug"), ("namespace", nsId)] } },
         driverCalls := [vnetDriverCall env u opt] }) := by
  obtain ⟨hns, hval, hnew, hdrv, hput, hlab⟩ := h
  unfold CreateVNet
  simp [hns, hval, hnew, hdrv, hput, hlab, vnetContent]

/-! Claim theorems. -/

/-- C1: when the driver (Spider) request fails, CreateVNet returns an error and
persists nothing: the whole state (vNet KV tree, subnet tree, label index,
subnet-create log) is unchanged. -/
theorem createVNet_driverFailure_noPersist (env : VNetEnv) (st : VNetState)
    (nsId : String) (u : TbVNetReq) (opt : String)
    (h : env.driverResult = none) :
    (CreateVNet env st nsId u opt).err.isSome = true ∧
    (CreateVNet env st nsId u opt).state = st := by
  unfold CreateVNet
  cases hc : checkString nsId <;> cases hv : validateVNetReq u <;>
    cases hex : (kvGet st.vnetStore (genResourceKey nsId strVNet u.Name)).isSome <;>
      simp [hc, hv, hex, h]

/-- Witness for C1 at a concrete failing-driver input. -/
theorem createVNet_driverFailure_noPersist_witness :
    ({ exEnv with driverResult := none } : VNetEnv).driverResult = none ∧
    ((CreateVNet { exEnv with driverResult := none } emptyVNetState "ns01" exReq "").err.isSome = true ∧
     (CreateVNet { exEnv with driverResult := none } emptyVNetState "ns01" exReq "").state = emptyVNetState) :=
  ⟨rfl, createVNet_driverFailure_noPersist { exEnv with driverResult := none }
    emptyVNetState "ns01" exReq "" rfl⟩

/-- C2: when a vNet with id u.Name already exists under (nsId, vNet), a second
CreateVNet returns the AlreadyExists error, leaves the state (and hence the
first entity) unmodified, and issues no driver call. -/
theorem createVNet_alreadyExists (env : VNetEnv) (st : VNetState) (nsId : String)
    (u : TbVNetReq) (opt : String) (e : TbVNetInfo)
    (hns : checkString nsId = true) (hval : validateVNetReq u = true)
    (hex : kvGet st.vnetStore (genResourceKey nsId strVNet u.Name) = some e) :
    CreateVNet env st nsId u opt =
      { ret := emptyTbVNetInfo, err := some .alreadyExists, state := st,
        driverCalls := [] } := by
  unfold CreateVNet
  simp [hns, hval, hex]

/-- Witness for C2: create vnet01 into the empty state, then create it again. -/
theorem createVNet_alreadyExists_witness :
    checkString "ns01" = true ∧ validateVNetReq exReq = true ∧
    (∃ e, kvGet (CreateVNet exEnv emptyVNetState "ns01" exReq "").state.vnetStore
        (genResourceKey "ns01" strVNet exReq.Name) = some e ∧
      CreateVNet exEnv (CreateVNet exEnv emptyVNetState "ns01" exReq "").state "ns01" exReq "" =
        { ret := emptyTbVNetInfo, err := some .alreadyExists,
          state := (CreateVNet exEnv emptyVNetState "ns01" exReq "").state,
          driverCalls := [] }) := by
  refine ⟨by decide, by decide, ?_⟩
  refine ⟨(kvGet (CreateVNet exEnv emptyVNetState "ns01" exReq "").state.vnetStore
      (genResourceKey "ns01" strVNet exReq.Name)).getD emptyTbVNetInfo, by decide, ?_⟩
  exact createVNet_alreadyExists exEnv
    (CreateVNet exEnv emptyVNetState "ns01" exReq "").state "ns01" exReq ""
    ((kvGet (CreateVNet exEnv emptyVNetState "ns01" exReq "").state.vnetStore
      (genResourceKey "ns01" strVNet exReq.Name)).getD emptyTbVNetInfo)
    (by decide) (by decide) (by decide)

/-- C7: when the driver call succeeds but the KV write fails, CreateVNet
returns the KV (Internal) error, persists nothing, and issues exactly the one
create request to the driver (no rollback request). -/
theorem createVNet_putFailure (env : VNetEnv) (st : VNetState) (nsId : String)
    (u : TbVNetReq) (opt : String) (r : SpiderVPCInfo)
    (hns : checkString nsId = true) (hval : validateVNetReq u = true)
    (hnew : kvGet st.vnetStore (genResourceKey nsId strVNet u.Name) = none)
    (hdrv : env.driverResult = some r) (hput : env.putOk = false) :
    CreateVNet env st nsId u opt =
      { ret := vnetContent env.genUid u opt r, err := some .kvPutError, state := st,
        driverCalls := [vnetDriverCall env u opt] } := by
  unfold CreateVNet
  simp [hns, hval, hnew, hdrv, hput]

/-- Witness for C7 at a concrete put-failing input. -/
theorem createVNet_putFailure_witness :
    checkString "ns01" = true ∧ validateVNetReq exReq = true ∧
    kvGet emptyVNetState.vnetStore (genResourceKey "ns01" strVNet exReq.Name) = none ∧
    ({ exEnv with putOk := false } : VNetEnv).driverResult = some exVPCInfo ∧
    CreateVNet { exEnv with putOk := false } emptyVNetState "ns01" exReq "" =
      { ret := vnetContent "uid-8f2c" exReq "" exVPCInfo, err := some .kvPutError,
        state := emptyVNetState,
        driverCalls := [vnetDriverCall { exEnv with putOk := false } exReq ""] } :=
  ⟨by decide, by decide, by decide, rfl,
    createVNet_putFailure { exEnv with putOk := false } emptyVNetState "ns01" exReq ""
      exVPCInfo (by decide) (by decide) (by decide) rfl rfl⟩

/-- C9 counterexample: a request whose CidrBlock is not CIDR syntax passes
validation, a driver request is sent, and CreateVNet succeeds, so no
Validation error is returned for malformed CIDR input. -/
theorem createVNet_malformedCidr_counterexample :
    exBadCidrReq.CidrBlock = "not-a-cidr" ∧
    (CreateVNet exEnv emptyVNetState "ns01" exBadCidrReq "").err = none ∧
    (CreateVNet exEnv emptyVNetState "ns01" exBadCidrReq "").driverCalls ≠ [] := by
  decide

/-- C9 (amended): when nsId is empty or charset-violating, or the request
fails struct validation (empty or charset-violating name, missing
connectionName), CreateVNet returns an error with no driver request sent and
nothing persisted; CIDR syntax is not checked. -/
theorem createVNet_validationFailure (env : VNetEnv) (st : VNetState)
    (nsId : String) (u : TbVNetReq) (opt : String)
    (h : checkString nsId = false ∨ validateVNetReq u = false) :
    (CreateVNet env st nsId u opt).err.isSome = true ∧
    (CreateVNet env st nsId u opt).state = st ∧
    (CreateVNet env st nsId u opt).driverCalls = [] := by
  unfold CreateVNet
  rcases h with h | h
  · simp [h]
  · cases hc : checkString nsId <;> simp [h, hc]

/-- Witness for C9 at a concrete invalid input (empty connectionName). -/
theorem createVNet_validationFailure_witness :
    (checkString "ns01" = false ∨ validateVNetReq { exReq with ConnectionName := "" } = false) ∧
    ((CreateVNet exEnv emptyVNetState "ns01" { exReq with ConnectionName := "" } "").err.isSome = true ∧
     (CreateVNet exEnv emptyVNetState "ns01" { exReq with ConnectionName := "" } "").state = emptyVNetState ∧
     (CreateVNet exEnv emptyVNetState "ns01" { exReq with ConnectionName := "" } "").driverCalls = []) :=
  ⟨Or.inr (by decide),
    createVNet_validationFailure exEnv emptyVNetState "ns01"
      { exReq with ConnectionName := "" } "" (Or.inr (by decide))⟩

/-- C3 counterexample: on a successful create whose driver response reports a
CIDR different from the requested one, the cidrBlock read back by Get is the
driver value, not the user-provided one, so not every user-provided field is
echoed unchanged. -/
theorem createVNet_cidr_not_echoed :
    exReq.CidrBlock = "192.168.0.0/16" ∧
    (CreateVNet exEnv emptyVNetState "ns01" exReq "").err = none ∧
    ((GetVNet (CreateVNet exEnv emptyVNetState "ns01" exReq "").state "ns01"
        exReq.Name).map (fun e => e.CidrBlock)) = some "10.0.0.0/16" := by
  decide

/-- C3 (amended): on a successful CreateVNet the object stored and returned has
id u.Name, and name, connectionName and description are echoed unchanged by a
subsequent Get; cidrBlock however is taken from the driver response. -/
theorem createVNet_roundtrip (env : VNetEnv) (st : VNetState) (nsId : String)
    (u : TbVNetReq) (opt : String) (r : SpiderVPCInfo)
    (h : SuccessPath env st nsId u r) :
    (CreateVNet env st nsId u opt).err = none ∧
    ∃ e, GetVNet (CreateVNet env st nsId u opt).state nsId u.Name = some e ∧
      (CreateVNet env st nsId u opt).ret = e ∧
      e.Id = u.Name ∧ e.Name = u.Name ∧ e.ConnectionName = u.ConnectionName ∧
      e.Description = u.Description ∧ e.CidrBlock = r.IPv4_CIDR := by
  rw [createVNet_success_eq env st nsId u opt r h]
  obtain ⟨subs, hsubs⟩ := subnetFold_parent nsId u.Name r.SubnetInfoList
    { st with vnetStore :=
        (kvPut st.vnetStore (genResourceKey nsId strVNet u.Name)
          (vnetContent env.genUid u opt r)) }
    (vnetContent env.genUid u opt r) (kvGet_kvPut_self ..)
  refine ⟨rfl, { vnetContent env.genUid u opt r with SubnetInfoList := subs },
    ?_, ?_, rfl, rfl, rfl, rfl, rfl⟩
  · simpa [GetVNet] using hsubs
  · simp [hsubs]

/-- Witness for C3 at the concrete example input. -/
theorem createVNet_roundtrip_witness :
    SuccessPath exEnv emptyVNetState "ns01" exReq exVPCInfo ∧
    ((CreateVNet exEnv emptyVNetState "ns01" exReq "").err = none ∧
     ∃ e, GetVNet (CreateVNet exEnv emptyVNetState "ns01" exReq "").state "ns01"
         exReq.Name = some e ∧
       (CreateVNet exEnv emptyVNetState "ns01" exReq "").ret = e ∧
       e.Id = exReq.Name ∧ e.Name = exReq.Name ∧
       e.ConnectionName = exReq.ConnectionName ∧
       e.Description = exReq.Description ∧ e.CidrBlock = exVPCInfo.IPv4_CIDR) :=
  ⟨by decide, createVNet_roundtrip exEnv emptyVNetState "ns01" exReq "" exVPCInfo (by decide)⟩

/-- C5 counterexample: in a successful CreateVNet the subnet names handed to
the driver are exactly the tenant-facing subnet names of the request (the
uid-derived naming is only applied to the vNet itself). -/
theorem createVNet_subnetName_handed_to_driver :
    (CreateVNet exEnv emptyVNetState "ns01" exReq "").err = none ∧
    ((CreateVNet exEnv emptyVNetState "ns01" exReq "").driverCalls.map
      (fun c => c.body.ReqInfo.SubnetInfoList.map (fun sn => sn.Name)))
      = [["subnet01"]] ∧
    exReq.SubnetInfoList.map (fun sn => sn.Name) = ["subnet01"] ∧
    exEnv.genUid ≠ "subnet01" := by
  decide

/-- C5 (amended): the vNet name handed to the driver is the synthesised uid,
distinct from the tenant-facing id whenever the uid differs from it, and the
persisted entity stores the id-to-CSP-name mapping (Uuid, CspVNetName,
CspVNetId); subnet elements of the request keep their tenant-facing names. -/
theorem createVNet_cspName_mapping (env : VNetEnv) (st : VNetState) (nsId : String)
    (u : TbVNetReq) (opt : String) (r : SpiderVPCInfo)
    (h : SuccessPath env st nsId u r) (hneq : env.genUid ≠ u.Name) :
    ((CreateVNet env st nsId u opt).driverCalls.map
        (fun c => c.body.ReqInfo.Name)) = [env.genUid] ∧
    (∀ c ∈ (CreateVNet env st nsId u opt).driverCalls, c.body.ReqInfo.Name ≠ u.Name) ∧
    ((CreateVNet env st nsId u opt).driverCalls.map
        (fun c => c.body.ReqInfo.SubnetInfoList.map (fun sn => sn.Name)))
      = [u.SubnetInfoList.map (fun sn => sn.Name)] ∧
    ∃ e, GetVNet (CreateVNet env st nsId u opt).state nsId u.Name = some e ∧
      e.Uuid = env.genUid ∧ e.CspVNetName = r.IId.NameId ∧
      e.CspVNetId = r.IId.SystemId := by
  rw [createVNet_success_eq env st nsId u opt r h]
  obtain ⟨subs, hsubs⟩ := subnetFold_parent nsId u.Name r.SubnetInfoList
    { st with vnetStore :=
        (kvPut st.vnetStore (genResourceKey nsId strVNet u.Name)
          (vnetContent env.genUid u opt r)) }
    (vnetContent env.genUid u opt r) (kvGet_kvPut_self ..)
  refine ⟨?_, ?_, ?_, { vnetContent env.genUid u opt r with SubnetInfoList := subs },
    ?_, rfl, rfl, rfl⟩
  · simp [vnetDriverCall, vnetRequestBody]
  · simpa [vnetDriverCall, vnetRequestBody] using hneq
  · simp [vnetDriverCall, vnetRequestBody]
  · simpa [GetVNet] using hsubs

/-- Witness for C5 at the concrete example input. -/
theorem createVNet_cspName_mapping_witness :
    (SuccessPath exEnv emptyVNetState "ns01" exReq exVPCInfo ∧ exEnv.genUid ≠ exReq.Name) ∧
    (((CreateVNet exEnv emptyVNetState "ns01" exReq "").driverCalls.map
        (fun c => c.body.ReqInfo.Name)) = [exEnv.genUid] ∧
     (∀ c ∈ (CreateVNet exEnv emptyVNetState "ns01" exReq "").driverCalls,
        c.body.ReqInfo.Name ≠ exReq.Name) ∧
     ((CreateVNet exEnv emptyVNetState "ns01" exReq "").driverCalls.map
        (fun c => c.body.ReqInfo.SubnetInfoList.map (fun sn => sn.Name)))
       = [exReq.SubnetInfoList.map (fun sn => sn.Name)] ∧
     ∃ e, GetVNet (CreateVNet exEnv emptyVNetState "ns01" exReq "").state "ns01"
         exReq.Name = some e ∧
       e.Uuid = exEnv.genUid ∧ e.CspVNetName = exVPCInfo.IId.NameId ∧
       e.CspVNetId = exVPCInfo.IId.SystemId) :=
  ⟨⟨by decide, by decide⟩,
    createVNet_cspName_mapping exEnv emptyVNetState "ns01" exReq "" exVPCInfo
      (by decide) (by decide)⟩

/-- C8: a successful CreateVNet issues one CreateSubnet call per element of the
driver response SubnetInfoList, named by the driver NameId and carrying the
driver SystemId as IdFromCsp. -/
theorem createVNet_child_subnets (env : VNetEnv) (st : VNetState) (nsId : String)
    (u : TbVNetReq) (opt : String) (r : SpiderVPCInfo)
    (h : SuccessPath env st nsId u r) :
    (CreateVNet env st nsId u opt).err = none ∧
    (CreateVNet env st nsId u opt).state.subnetCreates
      = st.subnetCreates ++ r.SubnetInfoList.map (fun v => (nsId, u.Name,
          { Name := v.IId.NameId, IdFromCsp := v.IId.SystemId,
            IPv4_CIDR := v.IPv4_CIDR, Zone := v.Zone,
            KeyValueList := v.KeyValueList, Description := "" })) := by
  rw [createVNet_success_eq env st nsId u opt r h]
  exact ⟨rfl, by simp [subnetFold_subnetCreates, subnetReqOfSpider]⟩

/-- Witness for C8 at the concrete example input (one driver subnet). -/
theorem createVNet_child_subnets_witness :
    SuccessPath exEnv emptyVNetState "ns01" exReq exVPCInfo ∧
    ((CreateVNet exEnv emptyVNetState "ns01" exReq "").err = none ∧
     (CreateVNet exEnv emptyVNetState "ns01" exReq "").state.subnetCreates
       = emptyVNetState.subnetCreates ++ exVPCInfo.SubnetInfoList.map
           (fun v => ("ns01", exReq.Name,
             { Name := v.IId.NameId, IdFromCsp := v.IId.SystemId,
               IPv4_CIDR := v.IPv4_CIDR, Zone := v.Zone,
               KeyValueList := v.KeyValueList, Description := "" }))) :=
  ⟨by decide, createVNet_child_subnets exEnv emptyVNetState "ns01" exReq "" exVPCInfo (by decide)⟩

/-- C10: the vNet entity persisted by a successful CreateVNet has an empty
associatedObjectList, Id equal to Name, and Uuid equal to the generated uid,
which is exactly the name handed to the driver. -/
theorem createVNet_fresh_invariants (env : VNetEnv) (st : VNetState) (nsId : String)
    (u : TbVNetReq) (opt : String) (r : SpiderVPCInfo)
    (h : SuccessPath env st nsId u r) :
    ∃ e, GetVNet (CreateVNet env st nsId u opt).state nsId u.Name = some e ∧
      e.AssociatedObjectList = [] ∧ e.Id = e.Name ∧ e.Id = u.Name ∧
      e.Uuid = env.genUid ∧
      ((CreateVNet env st nsId u opt).driverCalls.map
        (fun c => c.body.ReqInfo.Name)) = [env.genUid] := by
  rw [createVNet_success_eq env st nsId u opt r h]
  obtain ⟨subs, hsubs⟩ := subnetFold_parent nsId u.Name r.SubnetInfoList
    { st with vnetStore :=
        (kvPut st.vnetStore (genResourceKey nsId strVNet u.Name)
          (vnetContent env.genUid u opt r)) }
    (vnetContent env.genUid u opt r) (kvGet_kvPut_self ..)
  refine ⟨{ vnetContent env.genUid u opt r with SubnetInfoList := subs },
    ?_, rfl, rfl, rfl, rfl, ?_⟩
  · simpa [GetVNet] using hsubs
  · simp [vnetDriverCall, vnetRequestBody]

/-- Witness for C10 at the concrete example input. -/
theorem createVNet_fresh_invariants_witness :
    SuccessPath exEnv emptyVNetState "ns01" exReq exVPCInfo ∧
    (∃ e, GetVNet (CreateVNet exEnv emptyVNetState "ns01" exReq "").state "ns01"
        exReq.Name = some e ∧
      e.AssociatedObjectList = [] ∧ e.Id = e.Name ∧ e.Id = exReq.Name ∧
      e.Uuid = exEnv.genUid ∧
      ((CreateVNet exEnv emptyVNetState "ns01" exReq "").driverCalls.map
        (fun c => c.body.ReqInfo.Name)) = [exEnv.genUid]) :=
  ⟨by decide, createVNet_fresh_invariants exEnv emptyVNetState "ns01" exReq "" exVPCInfo (by decide)⟩

/-- C4 counterexample: UpdateConfig with a key outside the allow-list returns
no error and persists the pair under /config/, so such updates are not
rejected. -/
theorem updateConfig_unknownKey_counterexample :
    ("NOT_A_KNOWN_KEY" ∉ configAllowList) ∧
    (UpdateConfig true emptyConfigState { Name := "NOT_A_KNOWN_KEY", Value := "v1" }).err = false ∧
    kvGet (UpdateConfig true emptyConfigState
        { Name := "NOT_A_KNOWN_KEY", Value := "v1" }).state.store "/config/NOT_A_KNOWN_KEY"
      = some { Id := "NOT_A_KNOWN_KEY", Name := "NOT_A_KNOWN_KEY", Value := "v1" } := by
  decide

/-- C4 (amended): for a key outside the enumerated allow-list, UpdateConfig
still succeeds and persists the pair at /config/\x7bname\x7d; only the
in-process mirror is left untouched (the UpdateEnv switch default does
nothing). -/
theorem updateConfig_unknownKey (st : ConfigState) (u : ConfigReq)
    (h : u.Name ∉ configAllowList) :
    (UpdateConfig true st u).err = false ∧
    kvGet (UpdateConfig true st u).state.store ("/config/" ++ u.Name)
      = some { Id := u.Name, Name := u.Name, Value := u.Value } ∧
    (UpdateConfig true st u).state.mirror = st.mirror := by
  simp only [configAllowList, List.mem_cons, List.mem_nil_iff, or_false, not_or] at h
  obtain ⟨h1, h2, h3, h4, h5, h6, h7⟩ := h
  have hstore : kvGet (kvPut st.store ("/config/" ++ u.Name)
      { Id := u.Name, Name := u.Name, Value := u.Value }) ("/config/" ++ u.Name)
      = some { Id := u.Name, Name := u.Name, Value := u.Value } := kvGet_kvPut_self ..
  unfold UpdateConfig UpdateEnv
  by_cases he : u.Name = ""
  · simp [GetConfig, he, kvGet_kvPut_self]
  · simp [GetConfig, he, hstore, h1, h2, h3, h4, h5, h6, h7]

/-- Witness for C4 at a concrete unknown key. -/
theorem updateConfig_unknownKey_witness :
    ("SOME_OTHER_KEY" ∉ configAllowList) ∧
    ((UpdateConfig true emptyConfigState { Name := "SOME_OTHER_KEY", Value := "v2" }).err = false ∧
     kvGet (UpdateConfig true emptyConfigState
         { Name := "SOME_OTHER_KEY", Value := "v2" }).state.store ("/config/" ++ "SOME_OTHER_KEY")
       = some { Id := "SOME_OTHER_KEY", Name := "SOME_OTHER_KEY", Value := "v2" } ∧
     (UpdateConfig true emptyConfigState
         { Name := "SOME_OTHER_KEY", Value := "v2" }).state.mirror = emptyConfigState.mirror) :=
  ⟨by decide, updateConfig_unknownKey emptyConfigState
    { Name := "SOME_OTHER_KEY", Value := "v2" } (by decide)⟩

/-- C6: UpdateConfig with an allow-listed name persists the pair at
/config/\x7bname\x7d so that GetConfig and ListConfig see the new value, and
refreshes the in-process mirror variable for that key in the same call. -/
theorem updateConfig_allowlisted (st : ConfigState) (name value : String)
    (h : name ∈ configAllowList) :
    (UpdateConfig true st { Name := name, Value := value }).err = false ∧
    kvGet (UpdateConfig true st { Name := name, Value := value }).state.store
        ("/config/" ++ name) = some { Id := name, Name := name, Value := value } ∧
    GetConfig (UpdateConfig true st { Name := name, Value := value }).state name
      = some { Id := name, Name := name, Value := value } ∧
    ({ Id := name, Name := name, Value := value } : ConfigInfo)
      ∈ ListConfig (UpdateConfig true st { Name := name, Value := value }).state ∧
    mirrorLookup (UpdateConfig true st { Name := name, Value := value }).state.mirror name
      = some value := by
  simp only [configAllowList, List.mem_cons, List.mem_nil_iff, or_false] at h
  rcases h with rfl | rfl | rfl | rfl | rfl | rfl | rfl <;>
    refine ⟨rfl, ?_, ?_, ?_, ?_⟩ <;>
      simp [UpdateConfig, UpdateEnv, GetConfig, ListConfig, mirrorLookup,
        kvGet_kvPut_self, kvPut_value_mem, -List.mem_map]

/-- Witness for C6 at the concrete update of the driver URL. -/
theorem updateConfig_allowlisted_witness :
    ("SPIDER_REST_URL" ∈ configAllowList) ∧
    ((UpdateConfig true emptyConfigState
        { Name := "SPIDER_REST_URL", Value := "http://x:1" }).err = false ∧
     kvGet (UpdateConfig true emptyConfigState
         { Name := "SPIDER_REST_URL", Value := "http://x:1" }).state.store
        ("/config/" ++ "SPIDER_REST_URL")
       = some { Id := "SPIDER_REST_URL", Name := "SPIDER_REST_URL", Value := "http://x:1" } ∧
     GetConfig (UpdateConfig true emptyConfigState
         { Name := "SPIDER_REST_URL", Value := "http://x:1" }).state "SPIDER_REST_URL"
       = some { Id := "SPIDER_REST_URL", Name := "SPIDER_REST_URL", Value := "http://x:1" } ∧
     ({ Id := "SPIDER_REST_URL", Name := "SPIDER_REST_URL", Value := "http://x:1" } : ConfigInfo)
       ∈ ListConfig (UpdateConfig true emptyConfigState
           { Name := "SPIDER_REST_URL", Value := "http://x:1" }).state ∧
     mirrorLookup (UpdateConfig true emptyConfigState
         { Name := "SPIDER_REST_URL", Value := "http://x:1" }).state.mirror "SPIDER_REST_URL"
       = some "http://x:1") :=
  ⟨by decide, updateConfig_allowlisted emptyConfigState "SPIDER_REST_URL" "http://x:1" (by decide)⟩

end Tumblebug
